import Mathlib

/-!
Verification development for the witx-bindgen Kotlin code generator
(crates/witx-bindgen/src/lib.rs).

The generator walks a witx interface-description document and emits Kotlin
source text.  We give a shallow embedding of the generator's own code:

* The witx type model (Type, TypeRef, NamedType, records, variants, ...) is
  embedded as a family of mutually inductive trees.  Attributes that the
  external witx crate computes for the generator (bitflags representation,
  tuple-ness, member byte offsets, variant tag representation and payload
  offset, the boolean/expected classification of a variant, a function's
  flattened wasm signature) are carried as data on the nodes, because the
  witx crate is an external collaborator of the code under verification.
  Named-type references are embedded as the referenced definition itself
  (the witx document is acyclic, so every reference is a finite tree).

* Every generator function that appends to the output string is embedded as
  a function returning the appended text; a Rust panic / unimplemented / a
  failed assertion or index is modelled as the result none (generation
  aborts with no output).

* The identifier case-conversion utilities (the external heck crate) are
  abstracted as a record of string functions passed to the renderers.
-/

namespace WitxBindgen

/-- witx IntRepr: width of an integer representation (tags, bitflags). -/
inductive IntRepr where
  | U8 | U16 | U32 | U64
deriving DecidableEq, Repr

/-- witx BuiltinType.  U8 carries the lang-c-char flag and U32 the
lang-ptr-size flag exactly as in witx; the generator ignores both. -/
inductive BuiltinType where
  | U8 (lang_c_char : Bool)
  | U16
  | U32 (lang_ptr_size : Bool)
  | U64
  | S8 | S16 | S32 | S64 | F32 | F64
  | Char
deriving DecidableEq, Repr

/-- witx WasmType: scalar types of the flattened wasm signature. -/
inductive WasmType where
  | I32 | I64 | F32 | F64
deriving DecidableEq, Repr

mutual

/-- witx TypeRef: a direct value type or a reference to a named type.
The reference carries the named type itself (the document is acyclic). -/
inductive TypeRef where
  | Name (nt : NamedType)
  | Value (ty : Type_)

/-- witx NamedType: a name bound to a type reference. -/
inductive NamedType where
  | mk (name : String) (tref : TypeRef)

/-- witx Type: the tagged union of concrete type shapes. -/
inductive Type_ where
  | Record (r : RecordDatatype)
  | Variant (v : VariantT)
  | Handle
  | List_ (elem : TypeRef)
  | Pointer (pointee : TypeRef)
  | ConstPointer (pointee : TypeRef)
  | Builtin (b : BuiltinType)

/-- witx RecordDatatype.  bitflagsRepr mirrors record.bitflags_repr(),
isTuple mirrors record.is_tuple(), and memberOffsets mirrors the byte
offsets record.member_layout() returns; all three are computed by the
external witx crate and are carried here as data. -/
inductive RecordDatatype where
  | mk (members : List RecordMember) (bitflagsRepr : Option IntRepr)
       (isTuple : Bool) (memberOffsets : List Nat)

/-- witx RecordMember: a named member with documentation and a type. -/
inductive RecordMember where
  | mk (name : String) (docs : String) (tref : TypeRef)

/-- witx Variant.  tagRepr mirrors variant.tag_repr, payloadOffset mirrors
variant.payload_offset(), isBool mirrors variant.is_bool() and asExpected
mirrors variant.as_expected(); the latter three are computed by the
external witx crate and carried here as data. -/
inductive VariantT where
  | mk (cases : List CaseT) (tagRepr : IntRepr) (payloadOffset : Nat)
       (isBool : Bool) (asExpected : Option (Option TypeRef × Option TypeRef))

/-- witx Case: a variant case with an optional payload type. -/
inductive CaseT where
  | mk (name : String) (docs : String) (tref : Option TypeRef)

end

namespace NamedType

def name : NamedType → String
  | .mk n _ => n

def tref : NamedType → TypeRef
  | .mk _ t => t

end NamedType

namespace RecordDatatype

def members : RecordDatatype → List RecordMember
  | .mk ms _ _ _ => ms

def bitflagsRepr : RecordDatatype → Option IntRepr
  | .mk _ b _ _ => b

def isTuple : RecordDatatype → Bool
  | .mk _ _ t _ => t

def memberOffsets : RecordDatatype → List Nat
  | .mk _ _ _ o => o

end RecordDatatype

namespace RecordMember

def name : RecordMember → String
  | .mk n _ _ => n

def docs : RecordMember → String
  | .mk _ d _ => d

def tref : RecordMember → TypeRef
  | .mk _ _ t => t

end RecordMember

namespace VariantT

def cases : VariantT → List CaseT
  | .mk cs _ _ _ _ => cs

def tagRepr : VariantT → IntRepr
  | .mk _ t _ _ _ => t

def payloadOffset : VariantT → Nat
  | .mk _ _ p _ _ => p

def isBool : VariantT → Bool
  | .mk _ _ _ b _ => b

def asExpected : VariantT → Option (Option TypeRef × Option TypeRef)
  | .mk _ _ _ _ e => e

end VariantT

namespace CaseT

def name : CaseT → String
  | .mk n _ _ => n

def docs : CaseT → String
  | .mk _ d _ => d

def tref : CaseT → Option TypeRef
  | .mk _ _ t => t

end CaseT

/-- witx TypeRef::type_(): resolve a reference to its concrete type. -/
def TypeRef.type_ : TypeRef → Type_
  | .Value t => t
  | .Name (.mk _ tr) => tr.type_

/-- witx NamedType::type_(): the concrete type a named type binds. -/
def NamedType.type_ (nt : NamedType) : Type_ :=
  nt.tref.type_

theorem TypeRef.sizeOf_resolved_lt : (tr : TypeRef) → sizeOf tr.type_ < sizeOf tr
  | .Value t => by simp [TypeRef.type_]
  | .Name (.mk n tr) => by
      have h := TypeRef.sizeOf_resolved_lt tr
      simp [TypeRef.type_]
      omega

theorem NamedType.sizeOf_named_tref_lt (nt : NamedType) : sizeOf nt.tref < sizeOf nt := by
  cases nt
  simp [NamedType.tref]

theorem NamedType.sizeOf_named_resolved_lt (nt : NamedType) : sizeOf nt.type_ < sizeOf nt := by
  have h1 := TypeRef.sizeOf_resolved_lt nt.tref
  have h2 := NamedType.sizeOf_named_tref_lt nt
  simp [NamedType.type_]
  omega

theorem RecordDatatype.sizeOf_members_lt (r : RecordDatatype) :
    sizeOf r.members < sizeOf r := by
  cases r
  simp [RecordDatatype.members]
  omega

theorem RecordMember.sizeOf_member_tref_lt (m : RecordMember) : sizeOf m.tref < sizeOf m := by
  cases m
  simp [RecordMember.tref]

theorem VariantT.sizeOf_cases_lt (v : VariantT) : sizeOf v.cases < sizeOf v := by
  cases v
  simp [VariantT.cases]
  omega

theorem CaseT.sizeOf_payload_lt (c : CaseT) (t : TypeRef) (h : c.tref = some t) :
    sizeOf t < sizeOf c := by
  cases c with
  | mk n d tr =>
    simp [CaseT.tref] at h
    subst h
    simp
    omega

/-- The identifier case conversions of the external heck crate, abstracted
as a record of string functions (spec lists them as external collaborators). -/
structure Casing where
  toCamelCase : String → String
  toShoutySnakeCase : String → String
  toSnakeCase : String → String

/-- to_rust_ident from lib.rs: the only keyword collision handled is in. -/
def to_rust_ident (name : String) : String :=
  match name with
  | "in" => "in_"
  | s => s

/-- Rust str::trim(): strip leading and trailing whitespace (embedded
structurally over the character list so that it evaluates). -/
def rustTrim (s : String) : String :=
  ⟨((s.data.dropWhile Char.isWhitespace).reverse.dropWhile Char.isWhitespace).reverse⟩

/-- Rust str::lines(): split on newline, dropping a trailing empty segment
and a trailing carriage return on each line. -/
def rustLines (s : String) : List String :=
  let parts := s.splitOn ("\n")
  let parts := match parts.getLast? with
    | some "" => parts.dropLast
    | _ => parts
  parts.map (fun l => if l.endsWith ("\r") then l.dropRight 1 else l)

/-- rustdoc from lib.rs: render a documentation comment block. -/
def rustdoc (docs : String) : String :=
  if (rustTrim docs).isEmpty then ""
  else
    "/**\n" ++ String.join ((rustLines docs).map (fun line => " * " ++ line ++ "\n"))
      ++ " */\n"

mutual

/-- IsSafe for Type (lib.rs lines 54-72): a type is safe unless it
(transitively) reaches a Pointer or ConstPointer. -/
def Type_.is_safe : Type_ → Bool
  | .Record record => membersAllSafe record.members
  | .Variant variant => casesAllSafe variant.cases
  | .Handle => true
  | .List_ l => Type_.is_safe l.type_
  | .Pointer _ => false
  | .ConstPointer _ => false
  | .Builtin _ => true
termination_by t => sizeOf t
decreasing_by
  · have h := RecordDatatype.sizeOf_members_lt record
    simp_wf
    omega
  · have h := VariantT.sizeOf_cases_lt variant
    simp_wf
    omega
  · have h := TypeRef.sizeOf_resolved_lt l
    simp_wf
    omega

/-- record.members.iter().all(|it| it.tref.is_safe()) -/
def membersAllSafe : List RecordMember → Bool
  | [] => true
  | .mk _ _ tr :: rest => TypeRef.is_safe tr && membersAllSafe rest
termination_by ms => sizeOf ms
decreasing_by
  all_goals simp_wf
  all_goals omega

/-- variant.cases.iter().all(|it| it.tref.is_none() || it.tref.unwrap().is_safe());
the unwrap cannot fail because of the short-circuit, so the embedding
matches on the option directly. -/
def casesAllSafe : List CaseT → Bool
  | [] => true
  | .mk _ _ none :: rest => true && casesAllSafe rest
  | .mk _ _ (some t) :: rest => TypeRef.is_safe t && casesAllSafe rest
termination_by cs => sizeOf cs
decreasing_by
  all_goals simp_wf
  all_goals omega

/-- IsSafe for TypeRef: self.type_().is_safe(). -/
def TypeRef.is_safe (tr : TypeRef) : Bool :=
  Type_.is_safe tr.type_
termination_by sizeOf tr
decreasing_by
  exact TypeRef.sizeOf_resolved_lt tr

end

/-- IsSafe for RecordDatatype (lib.rs lines 93-97). -/
def RecordDatatype.is_safe (r : RecordDatatype) : Bool :=
  membersAllSafe r.members

/-- is_variant_enum_like from lib.rs: every case carries no payload. -/
def is_variant_enum_like (v : VariantT) : Bool :=
  v.cases.all (fun c => c.tref.isNone)

mutual

/-- Stated from the spec's words (spec section 3, Safety classification):
a type is unsafe if it transitively contains a raw Pointer or ConstPointer.
This is the specification-side predicate, to be compared with is_safe. -/
def Type_.containsPointer : Type_ → Bool
  | .Record record => membersContainPointer record.members
  | .Variant variant => casesContainPointer variant.cases
  | .Handle => false
  | .List_ l => Type_.containsPointer l.type_
  | .Pointer _ => true
  | .ConstPointer _ => true
  | .Builtin _ => false
termination_by t => sizeOf t
decreasing_by
  · have h := RecordDatatype.sizeOf_members_lt record
    simp_wf
    omega
  · have h := VariantT.sizeOf_cases_lt variant
    simp_wf
    omega
  · have h := TypeRef.sizeOf_resolved_lt l
    simp_wf
    omega

/-- Spec-side: some record member transitively contains a pointer. -/
def membersContainPointer : List RecordMember → Bool
  | [] => false
  | .mk _ _ tr :: rest => TypeRef.containsPointer tr || membersContainPointer rest
termination_by ms => sizeOf ms
decreasing_by
  all_goals simp_wf
  all_goals omega

/-- Spec-side: some variant payload transitively contains a pointer. -/
def casesContainPointer : List CaseT → Bool
  | [] => false
  | .mk _ _ none :: rest => false || casesContainPointer rest
  | .mk _ _ (some t) :: rest => TypeRef.containsPointer t || casesContainPointer rest
termination_by cs => sizeOf cs
decreasing_by
  all_goals simp_wf
  all_goals omega

/-- Spec-side: the type a reference resolves to contains a pointer. -/
def TypeRef.containsPointer (tr : TypeRef) : Bool :=
  Type_.containsPointer tr.type_
termination_by sizeOf tr
decreasing_by
  exact TypeRef.sizeOf_resolved_lt tr

end

mutual

theorem Type_.is_safe_eq_not_containsPointer :
    (t : Type_) → t.is_safe = !t.containsPointer
  | .Record record => by
      have h := membersAllSafe_eq record.members
      simp [Type_.is_safe, Type_.containsPointer, h]
  | .Variant variant => by
      have h := casesAllSafe_eq variant.cases
      simp [Type_.is_safe, Type_.containsPointer, h]
  | .Handle => by simp [Type_.is_safe, Type_.containsPointer]
  | .List_ l => by
      have h := Type_.is_safe_eq_not_containsPointer l.type_
      simp [Type_.is_safe, Type_.containsPointer, h]
  | .Pointer _ => by simp [Type_.is_safe, Type_.containsPointer]
  | .ConstPointer _ => by simp [Type_.is_safe, Type_.containsPointer]
  | .Builtin _ => by simp [Type_.is_safe, Type_.containsPointer]
termination_by t => sizeOf t
decreasing_by
  · have h := RecordDatatype.sizeOf_members_lt record
    simp_wf
    omega
  · have h := VariantT.sizeOf_cases_lt variant
    simp_wf
    omega
  · have h := TypeRef.sizeOf_resolved_lt l
    simp_wf
    omega

theorem membersAllSafe_eq :
    (ms : List RecordMember) → membersAllSafe ms = !membersContainPointer ms
  | [] => by simp [membersAllSafe, membersContainPointer]
  | .mk n d tr :: rest => by
      have h1 := TypeRef.is_safe_eq tr
      have h2 := membersAllSafe_eq rest
      simp [membersAllSafe, membersContainPointer, h1, h2]
termination_by ms => sizeOf ms
decreasing_by
  all_goals simp_wf
  all_goals omega

theorem casesAllSafe_eq :
    (cs : List CaseT) → casesAllSafe cs = !casesContainPointer cs
  | [] => by simp [casesAllSafe, casesContainPointer]
  | .mk n d none :: rest => by
      have h2 := casesAllSafe_eq rest
      simp [casesAllSafe, casesContainPointer, h2]
  | .mk n d (some t) :: rest => by
      have h1 := TypeRef.is_safe_eq t
      have h2 := casesAllSafe_eq rest
      simp [casesAllSafe, casesContainPointer, h1, h2]
termination_by cs => sizeOf cs
decreasing_by
  all_goals simp_wf
  all_goals omega

theorem TypeRef.is_safe_eq (tr : TypeRef) : tr.is_safe = !tr.containsPointer := by
  have h := Type_.is_safe_eq_not_containsPointer tr.type_
  simp [TypeRef.is_safe, TypeRef.containsPointer, h]
termination_by sizeOf tr
decreasing_by
  exact TypeRef.sizeOf_resolved_lt tr

end

/-- witx InterfaceFuncParam: a named, documented parameter or result. -/
structure InterfaceFuncParam where
  name : String
  docs : String
  tref : TypeRef

/-- witx InterfaceFunc.  noreturn mirrors the witx attribute; wasmParams
and wasmResults mirror the two components of self.wasm_signature(), which
the external witx crate derives from the typed signature. -/
structure InterfaceFunc where
  name : String
  docs : String
  params : List InterfaceFuncParam
  results : List InterfaceFuncParam
  noreturn : Bool
  wasmParams : List WasmType
  wasmResults : List WasmType

/-- IsSafe for InterfaceFuncParam: self.tref.is_safe(). -/
def InterfaceFuncParam.is_safe (p : InterfaceFuncParam) : Bool :=
  p.tref.is_safe

/-- IsSafe for InterfaceFunc: all params and all results are safe. -/
def InterfaceFunc.is_safe (f : InterfaceFunc) : Bool :=
  f.params.all (fun p => p.is_safe) && f.results.all (fun p => p.is_safe)

/-- Stated from the spec's words: no parameter or result type transitively
contains a raw Pointer or ConstPointer (spec sections 3 and 4.5).
Specification-side predicate, to be compared with InterfaceFunc.is_safe. -/
def funcNoPointerSpec (f : InterfaceFunc) : Bool :=
  f.params.all (fun p => !p.tref.containsPointer)
    && f.results.all (fun p => !p.tref.containsPointer)

/-- load_int_repr from lib.rs: pick the typed read primitive by width. -/
def load_int_repr (repr : IntRepr) (ptr : String) : String :=
  let fn := match repr with
    | .U8 => "loadByte"
    | .U16 => "loadShort"
    | .U32 => "loadInt"
    | .U64 => "loadLong"
  fn ++ "(" ++ ptr ++ ")"

/-- store_int_repr from lib.rs: pick the typed write primitive by width. -/
def store_int_repr (repr : IntRepr) (reference : String) (ptr : String) : String :=
  let fn := match repr with
    | .U8 => "storeByte"
    | .U16 => "storeShort"
    | .U32 => "storeInt"
    | .U64 => "storeLong"
  fn ++ "(" ++ ptr ++ ", " ++ reference ++ ")"

/-- to_kotlin_type from lib.rs. -/
def to_kotlin_type (repr : IntRepr) : String :=
  match repr with
  | .U8 => "Byte"
  | .U16 => "Short"
  | .U32 => "Int"
  | .U64 => "Long"

/-- load_built_in from lib.rs: only the U32 and U64 builtins are
implemented; every other builtin hits unimplemented and aborts. -/
def load_built_in (builtin : BuiltinType) (ptr : String) : Option String :=
  match builtin with
  | .U32 _ => some (load_int_repr .U32 ptr)
  | .U64 => some (load_int_repr .U64 ptr)
  | _ => none

/-- store_built_in from lib.rs: only the U32 and U64 builtins are
implemented; every other builtin hits unimplemented and aborts. -/
def store_built_in (builtin : BuiltinType) (reference ptr : String) : Option String :=
  match builtin with
  | .U32 _ => some (store_int_repr .U32 reference ptr)
  | .U64 => some (store_int_repr .U64 reference ptr)
  | _ => none

/-- load_handle from lib.rs: a handle loads as a 4-byte integer. -/
def load_handle (ptr : String) : String :=
  load_int_repr .U32 ptr

/-- load_value_type from lib.rs: anonymous records, variants and lists are
unimplemented; handles and pointers load as 4-byte integers. -/
def load_value_type (vt : Type_) (ptr : String) : Option String :=
  match vt with
  | .Record _ => none
  | .Variant _ => none
  | .Handle => some (load_handle ptr)
  | .List_ _ => none
  | .Pointer _ => some (load_int_repr .U32 ptr)
  | .ConstPointer _ => some (load_int_repr .U32 ptr)
  | .Builtin b => load_built_in b ptr

/-- store_value_type from lib.rs: anonymous records, variants and lists are
unimplemented; handles and pointers store as 4-byte integers. -/
def store_value_type (vt : Type_) (reference ptr : String) : Option String :=
  match vt with
  | .Record _ => none
  | .Variant _ => none
  | .List_ _ => none
  | .Handle => some (store_int_repr .U32 reference ptr)
  | .Pointer _ => some (store_int_repr .U32 reference ptr)
  | .ConstPointer _ => some (store_int_repr .U32 reference ptr)
  | .Builtin b => store_built_in b reference ptr

mutual

/-- store_type from lib.rs (lines 699-744).  The appended text is returned;
none models an aborted generation (unimplemented or a failed index). -/
def store_type (cs : Casing) (nt : NamedType) (reference ptr : String) : Option String :=
  match h : nt.tref.type_ with
  | .Record record =>
      if record.isTuple then none
      else
        match record.bitflagsRepr with
        | some repr => some (store_int_repr repr reference ptr)
        | none => storeRecordMembers cs record.members record.memberOffsets 0 reference ptr
  | .Variant variant =>
      if is_variant_enum_like variant then
        some (store_int_repr variant.tagRepr
          (reference ++ ".ordinal.to" ++ to_kotlin_type variant.tagRepr ++ "()") ptr)
      else some ("TODO()")
  | .Handle => some (store_int_repr .U32 reference ptr)
  | .List_ _ => none
  | .Pointer _ => none
  | .ConstPointer _ => none
  | .Builtin builtin => store_built_in builtin reference ptr
termination_by sizeOf nt
decreasing_by
  · have h1 := TypeRef.sizeOf_resolved_lt nt.tref
    have h2 := NamedType.sizeOf_named_tref_lt nt
    have h3 := RecordDatatype.sizeOf_members_lt record
    rw [h] at h1
    simp at h1
    simp_wf
    omega

/-- The member loop of store_type: one statement per member, each member
stored at ptr + its layout offset, the member referenced by its
rust-identifier name. -/
def storeRecordMembers (cs : Casing) (members : List RecordMember) (offsets : List Nat)
    (i : Nat) (reference ptr : String) : Option String :=
  match members with
  | [] => some ""
  | .mk mname _ mtref :: rest => do
      let off ← offsets[i]?
      let part ← store_type_ref cs mtref (reference ++ "." ++ to_rust_ident mname)
                   (ptr ++ " + " ++ toString off)
      let restS ← storeRecordMembers cs rest offsets (i + 1) reference ptr
      pure (part ++ "\n" ++ restS)
termination_by sizeOf members
decreasing_by
  all_goals simp_wf
  all_goals omega

/-- store_type_ref from lib.rs: dispatch on named versus anonymous type. -/
def store_type_ref (cs : Casing) (tr : TypeRef) (reference ptr : String) : Option String :=
  match tr with
  | .Name nt => store_type cs nt reference ptr
  | .Value vt => store_value_type vt reference ptr
termination_by sizeOf tr

end

mutual

/-- load_type from lib.rs (lines 746-817).  The appended text is returned;
none models an aborted generation (unimplemented, a failed unwrap of a
missing variant payload, or a failed index). -/
def load_type (cs : Casing) (nt : NamedType) (ptr : String) : Option String :=
  let safePref := if nt.tref.is_safe then "" else "__unsafe__"
  match h : nt.type_ with
  | .Record record =>
      if record.isTuple then none
      else
        match record.bitflagsRepr with
        | some repr => some (load_int_repr repr ptr)
        | none => do
            let inner ← loadRecordMembers cs record.members record.memberOffsets 0 ptr
            pure (safePref ++ cs.toCamelCase nt.name ++ "(" ++ inner ++ ")")
  | .Variant variant =>
      if is_variant_enum_like variant then
        some (cs.toCamelCase nt.name ++ ".values()["
              ++ load_int_repr variant.tagRepr ptr ++ ".toInt()]")
      else do
        let casesS ← loadVariantCases cs (cs.toCamelCase nt.name) variant.cases 0
                       (ptr ++ " + " ++ toString variant.payloadOffset)
        pure ("when (" ++ load_int_repr variant.tagRepr ptr ++ ".toInt()) \x7b "
              ++ casesS ++ "else -> error(\"Invalid variant\")" ++ "\x7d")
  | .Handle => some (load_handle ptr)
  | .List_ _ => none
  | .Pointer _ => none
  | .ConstPointer _ => none
  | .Builtin builtin => load_built_in builtin ptr
termination_by sizeOf nt
decreasing_by
  · have h1 := NamedType.sizeOf_named_resolved_lt nt
    have h3 := RecordDatatype.sizeOf_members_lt record
    rw [h] at h1
    simp at h1
    simp_wf
    omega
  · have h1 := NamedType.sizeOf_named_resolved_lt nt
    have h3 := VariantT.sizeOf_cases_lt variant
    rw [h] at h1
    simp at h1
    simp_wf
    omega

/-- The member loop of the record branch of load_type: each member loaded
at ptr + its layout offset, each load followed by a comma. -/
def loadRecordMembers (cs : Casing) (members : List RecordMember) (offsets : List Nat)
    (i : Nat) (ptr : String) : Option String :=
  match members with
  | [] => some ""
  | .mk _ _ mtref :: rest => do
      let off ← offsets[i]?
      let part ← load_type_ref cs mtref (ptr ++ " + " ++ toString off)
      let restS ← loadRecordMembers cs rest offsets (i + 1) ptr
      pure (part ++ "," ++ restS)
termination_by sizeOf members
decreasing_by
  all_goals simp_wf
  all_goals omega

/-- The case loop of the variant branch of load_type: case i dispatches to
a constructor applied to the load of its payload at the shared payload
offset.  A case with no payload fails the unwrap and aborts. -/
def loadVariantCases (cs : Casing) (camelName : String) (cases : List CaseT) (i : Nat)
    (ptrOff : String) : Option String :=
  match cases with
  | [] => some ""
  | .mk _ _ none :: _ => none
  | .mk cname _ (some payload) :: rest => do
      let inner ← load_type_ref cs payload ptrOff
      let restS ← loadVariantCases cs camelName rest (i + 1) ptrOff
      pure (toString i ++ " -> \x7b " ++ camelName ++ "." ++ cname ++ "("
            ++ inner ++ ")\x7d " ++ restS)
termination_by sizeOf cases
decreasing_by
  all_goals simp_wf
  all_goals omega

/-- load_type_ref from lib.rs: dispatch on named versus anonymous type. -/
def load_type_ref (cs : Casing) (tr : TypeRef) (ptr : String) : Option String :=
  match tr with
  | .Name nt => load_type cs nt ptr
  | .Value vt => load_value_type vt ptr
termination_by sizeOf tr

end

/-- Render for IntRepr (lib.rs lines 205-214). -/
def IntRepr.render : IntRepr → String
  | .U8 => "Byte"
  | .U16 => "Short"
  | .U32 => "Int"
  | .U64 => "Long"

/-- Render for BuiltinType (lib.rs lines 286-309): Char is unsupported. -/
def BuiltinType.render : BuiltinType → Option String
  | .U8 _ => some ("Byte")
  | .U16 => some ("Short")
  | .U32 false => some ("Int")
  | .U32 true => some ("Int")
  | .U64 => some ("Long")
  | .S8 => some ("Byte")
  | .S16 => some ("Short")
  | .S32 => some ("Int")
  | .S64 => some ("Long")
  | .F32 => some ("Float")
  | .F64 => some ("Double")
  | .Char => none

/-- Render for WasmType (lib.rs lines 893-902). -/
def WasmType.render : WasmType → String
  | .I32 => "Int"
  | .I64 => "Long"
  | .F32 => "Float"
  | .F64 => "Double"

mutual

/-- Render for TypeRef (lib.rs lines 229-284): the target-language type
expression for a type reference.  Anonymous handles, anonymous non-tuple
records, non-two-element tuples, anonymous variants that are neither
boolean nor expected-shaped, and the Char builtin all abort. -/
def TypeRef.render (cs : Casing) : TypeRef → Option String
  | .Name nt =>
      some ((if (TypeRef.Name nt).is_safe then "" else "__unsafe__")
            ++ cs.toCamelCase nt.name)
  | .Value (.Builtin b) => BuiltinType.render b
  | .Value (.List_ t) =>
      match t.type_ with
      | .Builtin .Char => some ("String")
      | _ => do
          let inner ← TypeRef.render cs t
          pure ("List<" ++ inner ++ ">")
  | .Value (.Pointer t) => do
      let inner ← TypeRef.render cs t
      pure ("Pointer/*<" ++ inner ++ ">*/")
  | .Value (.ConstPointer t) => do
      let inner ← TypeRef.render cs t
      pure ("Pointer/*<" ++ inner ++ ">*/")
  | .Value (.Variant (.mk _ _ _ visBool vae)) =>
      if visBool then some ("Boolean")
      else
        match vae with
        | some (some ty, _) => TypeRef.render cs ty
        | some (none, _) => some ("Unit")
        | none => none
  | .Value (.Record r) =>
      if r.isTuple then
        if r.members.length ≠ 2 then none
        else do
          let inner ← renderTupleMembers cs r.members
          pure ("Pair<" ++ inner ++ ">")
      else none
  | .Value .Handle => none
termination_by tr => sizeOf tr
decreasing_by
  all_goals simp_wf
  all_goals try omega
  · have h := RecordDatatype.sizeOf_members_lt r
    omega

/-- The member loop of the tuple branch of TypeRef render. -/
def renderTupleMembers (cs : Casing) : List RecordMember → Option String
  | [] => some ""
  | .mk _ _ mtref :: rest => do
      let t ← TypeRef.render cs mtref
      let restS ← renderTupleMembers cs rest
      pure (t ++ "," ++ restS)
termination_by ms => sizeOf ms
decreasing_by
  all_goals simp_wf
  all_goals omega

end

/-- The member loop of the data-class branch of render_record. -/
def renderDataClassMembers (cs : Casing) : List RecordMember → Option String
  | [] => some ""
  | .mk mname mdocs mtref :: rest => do
      let t ← TypeRef.render cs mtref
      let restS ← renderDataClassMembers cs rest
      pure (rustdoc mdocs ++ "var " ++ to_rust_ident mname ++ ": " ++ t ++ ",\n" ++ restS)

/-- render_record from lib.rs (lines 117-168).  A bitflags record renders
as a typealias to its integer representation plus an object of flag
constants, the i-th flag having the value 1 shl i; any other record
renders as a data class together with generated load and store helpers. -/
def render_record (cs : Casing) (name : String) (nt : NamedType) (s : RecordDatatype) :
    Option String :=
  match s.bitflagsRepr with
  | some repr =>
      some ("typealias " ++ cs.toCamelCase name ++ " = " ++ IntRepr.render repr ++ "\n"
        ++ "object " ++ cs.toShoutySnakeCase name ++ " \x7b\n"
        ++ String.join (s.members.enum.map (fun p =>
             rustdoc p.2.docs ++ "const val " ++ cs.toShoutySnakeCase p.2.name ++ ": "
               ++ cs.toCamelCase name ++ " = 1 shl " ++ toString p.1 ++ "\n"))
        ++ "\x7d\n")
  | none => do
      let full_name := (if s.is_safe then "" else "__unsafe__") ++ cs.toCamelCase name
      let membersS ← renderDataClassMembers cs s.members
      let loadS ← load_type cs nt ("ptr")
      let storeS ← store_type cs nt ("x") ("ptr")
      pure ((if s.is_safe then "" else "internal ") ++ "data class "
        ++ full_name ++ "(\n" ++ membersS ++ ")"
        ++ "internal fun __load_" ++ full_name ++ "(ptr: Int): " ++ full_name ++ " \x7b\n"
        ++ "    return " ++ loadS ++ "\n\x7d\n"
        ++ "internal fun __store_" ++ full_name ++ "(x: " ++ full_name ++ ", ptr: Int) \x7b\n"
        ++ storeS ++ "\n\x7d\n")

/-- rustdoc_params from lib.rs (lines 922-955). -/
def rustdoc_params (docs : List InterfaceFuncParam) (header : String) : String :=
  let docs := docs.filter (fun p => (rustTrim p.docs).length > 0)
  if docs.length = 0 then ""
  else
    "///\n" ++ "/// ## " ++ header ++ "\n" ++ "///\n"
    ++ String.join (docs.map (fun p =>
         String.join ((rustLines p.docs).enum.map (fun q =>
           "/// "
           ++ (if header ≠ "Return" then
                 (if q.1 = 0 then "* `" ++ to_rust_ident p.name ++ "` - " else "  ")
               else "")
           ++ q.2 ++ "\n"))))

/-- The parameter loop of render_highlevel: name, colon, rendered type,
trailing comma, for each declared parameter. -/
def renderParams (cs : Casing) : List InterfaceFuncParam → Option String
  | [] => some ""
  | p :: rest => do
      let t ← TypeRef.render cs p.tref
      let restS ← renderParams cs rest
      pure (to_rust_ident p.name ++ ": " ++ t ++ "," ++ restS)

/-- The result-type part of render_highlevel: nothing for zero results, a
colon and the rendered type for one, unimplemented beyond one. -/
def renderResultPart (cs : Casing) : List InterfaceFuncParam → Option String
  | [] => some ""
  | [r] => do
      let t ← TypeRef.render cs r.tref
      pure (": " ++ t)
  | _ => none

/-- render_highlevel from lib.rs (lines 328-401).  multiModule mirrors the
multi-module cargo feature flag; body is the text the external
instruction-emission engine appends through the visitor while driving
func.call_wasm (the engine is an external collaborator, so its output is a
parameter here). -/
def render_highlevel (cs : Casing) (multiModule : Bool) (func : InterfaceFunc)
    (module : String) (body : String) : Option String := do
  let docs := rustdoc func.docs ++ rustdoc_params func.params ("Parameters")
                ++ rustdoc_params func.results ("Return")
  let is_safe := func.is_safe
  let ps ← renderParams cs func.params
  let res ← renderResultPart cs func.results
  pure (docs
    ++ (if is_safe then "" else "internal ")
    ++ "fun "
    ++ (if is_safe then "" else "__unsafe__")
    ++ (if multiModule then cs.toSnakeCase module ++ "_" ++ func.name
        else to_rust_ident func.name)
    ++ "("
    ++ (if is_safe then "" else "allocator: MemoryAllocator,")
    ++ ps
    ++ ")"
    ++ res
    ++ " \x7b\n"
    ++ (if is_safe then "withScopedMemoryAllocator \x7b allocator ->" else "")
    ++ body
    ++ (if is_safe then "\x7d" else "")
    ++ "\x7d")

/-- The parameter loop of the raw import declaration: argN, colon, the
wasm scalar type, trailing comma. -/
def renderWasmParams : List WasmType → String
  | ps => String.join (ps.enum.map (fun q =>
      "arg" ++ toString q.1 ++ ": " ++ WasmType.render q.2 ++ ","))

/-- Render for InterfaceFunc (lib.rs lines 847-877): the private raw wasm
import.  A function whose name is not already snake case is rejected by a
panic before any text is produced; the name is used verbatim everywhere
else.  More than one wasm result fails the assertion. -/
def InterfaceFunc.render (cs : Casing) (f : InterfaceFunc) : Option String :=
  if f.name ≠ cs.toSnakeCase f.name then none
  else if f.wasmResults.length > 1 then none
  else
    some (rustdoc f.docs
      ++ "@WasmImport(\"wasi_snapshot_preview1\", \"" ++ f.name ++ "\")\n"
      ++ "private external fun " ++ "_raw_wasm__" ++ f.name
      ++ "(" ++ renderWasmParams f.wasmParams ++ ")"
      ++ (if f.noreturn then ": Unit"
          else match f.wasmResults.head? with
            | some r => ": " ++ WasmType.render r
            | none => ""))

/-- The mutable state of the Rust visitor (lib.rs lines 403-408): the
output buffer, the declared parameters, the stack of saved buffers and the
list of completed blocks.  Vec push and pop act on the list's tail. -/
structure RustVisitor where
  src : String
  params : List InterfaceFuncParam
  block_storage : List String
  blocks : List String

/-- Vec::pop: remove and return the last element; none when empty. -/
def vecPop (xs : List String) : Option (List String × String) :=
  match xs.getLast? with
  | none => none
  | some a => some (xs.dropLast, a)

/-- Bindgen push_block (lib.rs lines 413-416): save the current buffer on
the block stack and start from an empty buffer. -/
def RustVisitor.push_block (st : RustVisitor) : RustVisitor :=
  { st with src := "", block_storage := st.block_storage ++ [st.src] }

/-- Bindgen finish_block (lib.rs lines 418-434): restore the saved buffer;
with no final operand the block must have emitted no statement text (the
assertion aborts otherwise) and is recorded as the literal Unit; with a
final operand the block is the operand alone when no statements were
emitted and otherwise wraps the statements followed by the operand. -/
def RustVisitor.finish_block (st : RustVisitor) (operand : Option String) :
    Option RustVisitor :=
  match vecPop st.block_storage with
  | none => none
  | some (storage, to_restore) =>
      match operand with
      | none =>
          if st.src.isEmpty then
            some { st with src := to_restore, block_storage := storage,
                           blocks := st.blocks ++ ["Unit"] }
          else none
      | some s =>
          if st.src.isEmpty then
            some { st with src := to_restore, block_storage := storage,
                           blocks := st.blocks ++ [s] }
          else
            some { st with src := to_restore, block_storage := storage,
                           blocks := st.blocks ++ ["\x7b " ++ st.src ++ ";\n " ++ s ++ " \x7d"] }

/-- Bindgen allocate_space (lib.rs lines 436-438); the type's byte size
comes from the external witx layout and is passed as a value. -/
def RustVisitor.allocate_space (st : RustVisitor) (n : Nat) (tyMemSize : Nat) : RustVisitor :=
  { st with src := st.src ++ "val rp" ++ toString n ++ " = allocator.allocate("
                     ++ toString tyMemSize ++ ")\n" }

/-- The abi instructions the visitor handles (witx abi Instruction).
Payload fields the visitor ignores are omitted; CallWasm carries the
callee name and the number of wasm results, which is all the visitor
reads. -/
inductive Instruction where
  | GetArg (nth : Nat)
  | AddrOf
  | I64FromBitflags
  | I64FromU64
  | I32FromPointer
  | I32FromConstPointer
  | I32FromHandle
  | I32FromUsize
  | I32FromChar
  | I32FromU8
  | I32FromS8
  | I32FromChar8
  | I32FromU16
  | I32FromS16
  | I32FromU32
  | I32FromBitflags
  | EnumLower
  | F32FromIf32
  | F64FromIf64
  | If32FromF32
  | If64FromF64
  | I64FromS64
  | I32FromS32
  | ListPointerLength
  | S8FromI32
  | Char8FromI32
  | U8FromI32
  | S16FromI32
  | U16FromI32
  | S32FromI32
  | U32FromI32
  | S64FromI64
  | U64FromI64
  | UsizeFromI32
  | HandleFromI32
  | PointerFromI32
  | ConstPointerFromI32
  | BitflagsFromI32
  | BitflagsFromI64
  | ReturnPointerGet (n : Nat)
  | Load (ty : NamedType)
  | ReuseReturn
  | TupleLift
  | ResultLift
  | EnumLift (ty : NamedType)
  | CharFromI32
  | CallWasm (module : String) (name : String) (nresults : Nat)
  | Return (amt : Nat)
  | Store
  | ListFromPointerLength
  | CallInterface
  | ResultLower
  | TupleLower
  | VariantPayload

/-- The top_as closure of Rust emit: pop the top operand and push it
wrapped in a Kotlin numeric conversion. -/
def topAs (cvt : String) (st : RustVisitor) (operands results : List String) :
    Option (RustVisitor × List String × List String) := do
  let (ops, s) ← vecPop operands
  pure (st, ops, results ++ [s ++ ".to" ++ cvt ++ "()"])

/-- Bindgen emit for the Rust visitor (lib.rs lines 440-600).  The result
is the new visitor state together with the operand and result vectors
after the call; none models a generation abort (a panic, an unimplemented
arm, a failed assertion, a failed unwrap or an out-of-bounds index). -/
def RustVisitor.emit (cs : Casing) (st : RustVisitor) (inst : Instruction)
    (operands results : List String) :
    Option (RustVisitor × List String × List String) :=
  match inst with
  | .GetArg nth => do
      let p ← st.params[nth]?
      pure (st, operands, results ++ [to_rust_ident p.name])
  | .AddrOf => none
  | .I64FromBitflags => topAs ("Long") st operands results
  | .I64FromU64 => topAs ("Long") st operands results
  | .I32FromPointer => topAs ("Int") st operands results
  | .I32FromConstPointer => topAs ("Int") st operands results
  | .I32FromHandle => topAs ("Int") st operands results
  | .I32FromUsize => topAs ("Int") st operands results
  | .I32FromChar => topAs ("Int") st operands results
  | .I32FromU8 => topAs ("Int") st operands results
  | .I32FromS8 => topAs ("Int") st operands results
  | .I32FromChar8 => topAs ("Int") st operands results
  | .I32FromU16 => topAs ("Int") st operands results
  | .I32FromS16 => topAs ("Int") st operands results
  | .I32FromU32 => topAs ("Int") st operands results
  | .I32FromBitflags => topAs ("Int") st operands results
  | .EnumLower => do
      let x ← operands[0]?
      pure (st, operands, results ++ [x ++ ".ordinal"])
  | .F32FromIf32 => do
      let (ops, s) ← vecPop operands
      pure (st, ops, results ++ [s])
  | .F64FromIf64 => do
      let (ops, s) ← vecPop operands
      pure (st, ops, results ++ [s])
  | .If32FromF32 => do
      let (ops, s) ← vecPop operands
      pure (st, ops, results ++ [s])
  | .If64FromF64 => do
      let (ops, s) ← vecPop operands
      pure (st, ops, results ++ [s])
  | .I64FromS64 => do
      let (ops, s) ← vecPop operands
      pure (st, ops, results ++ [s])
  | .I32FromS32 => do
      let (ops, s) ← vecPop operands
      pure (st, ops, results ++ [s])
  | .ListPointerLength => do
      let (ops, list) ← vecPop operands
      pure (st, ops, results
        ++ ["allocator.writeToLinearMemory(" ++ list ++ ")", list ++ ".size"])
  | .S8FromI32 => topAs ("Byte") st operands results
  | .Char8FromI32 => topAs ("Byte") st operands results
  | .U8FromI32 => topAs ("Byte") st operands results
  | .S16FromI32 => topAs ("Short") st operands results
  | .U16FromI32 => topAs ("Short") st operands results
  | .S32FromI32 => some (st, operands, results)
  | .U32FromI32 => some (st, operands, results)
  | .S64FromI64 => some (st, operands, results)
  | .U64FromI64 => some (st, operands, results)
  | .UsizeFromI32 => some (st, operands, results)
  | .HandleFromI32 => some (st, operands, results)
  | .PointerFromI32 => some (st, operands, results)
  | .ConstPointerFromI32 => some (st, operands, results)
  | .BitflagsFromI32 => none
  | .BitflagsFromI64 => none
  | .ReturnPointerGet n =>
      some (st, operands, results ++ ["rp" ++ toString n])
  | .Load ty =>
      match ty.tref with
      | .Name _ => none
      | .Value _ => do
          let addr ← operands[0]?
          let s ← load_type cs ty addr
          pure (st, operands, results ++ [s])
  | .ReuseReturn => some (st, operands, results ++ ["ret"])
  | .TupleLift =>
      if operands.length ≠ 2 then none
      else some (st, operands,
        results ++ ["Pair(" ++ String.intercalate (", ") operands ++ ")"])
  | .ResultLift => do
      let (bs1, err) ← vecPop st.blocks
      let (bs2, ok) ← vecPop bs1
      let d ← operands[0]?
      pure ({ st with blocks := bs2 }, operands,
        results ++ ["if (" ++ d ++ " == 0) \x7b\n" ++ ok
          ++ "\x7d else \x7b" ++ "throw WasiError(" ++ err ++ ")\n" ++ "\x7d\n"])
  | .EnumLift ty => do
      let d ← operands[0]?
      pure (st, operands,
        results ++ [cs.toCamelCase ty.name ++ ".values()[" ++ d ++ "]"])
  | .CharFromI32 => none
  | .CallWasm _ name nresults =>
      if nresults ≥ 2 then none
      else
        let withRet := nresults > 0
        let st1 := if withRet then { st with src := st.src ++ "val ret = " } else st
        let res1 := if withRet then results ++ ["ret"] else results
        some ({ st1 with src := st1.src ++ "_raw_wasm__" ++ name ++ "("
                           ++ String.intercalate (", ") operands ++ ");\n" },
              operands, res1)
  | .Return 0 => some (st, operands, results)
  | .Return 1 => do
      let d ← operands[0]?
      pure ({ st with src := st.src ++ "return " ++ d }, operands, results)
  | .Return _ => none
  | .Store => none
  | .ListFromPointerLength => none
  | .CallInterface => none
  | .ResultLower => none
  | .TupleLower => none
  | .VariantPayload => none

/-! Shared helper lemmas and concrete example values. -/

theorem vecPop_concat (l : List String) (a : String) : vecPop (l ++ [a]) = some (l, a) := by
  simp [vecPop]

theorem vecPop_concat2 (l : List String) (a b : String) :
    vecPop (l ++ [a, b]) = some (l ++ [a], b) := by
  have h : l ++ [a, b] = (l ++ [a]) ++ [b] := by simp
  rw [h, vecPop_concat]

/-- store_type on a named type resolving to a general (non-enum-like)
variant never aborts: it emits exactly the placeholder text TODO(). -/
theorem store_type_general_variant (cs : Casing) (nt : NamedType) (v : VariantT)
    (reference ptr : String) (h : nt.tref.type_ = .Variant v)
    (he : is_variant_enum_like v = false) :
    store_type cs nt reference ptr = some ("TODO()") := by
  unfold store_type
  split
  all_goals simp_all

/-- The case loop of the variant branch of load_type aborts as soon as any
case lacks a payload type (the unwrap of the missing payload fails). -/
theorem loadVariantCases_none_of_missing (cs : Casing) (camelName : String)
    (cases : List CaseT) (i : Nat) (ptrOff : String)
    (h : ∃ c ∈ cases, c.tref = none) :
    loadVariantCases cs camelName cases i ptrOff = none := by
  induction cases generalizing i with
  | nil => simp at h
  | cons c rest ih =>
      obtain ⟨c0, hmem, hnone⟩ := h
      cases c with
      | mk cname cdocs ctref =>
        cases ctref with
        | none => simp [loadVariantCases]
        | some payload =>
            rw [List.mem_cons] at hmem
            rcases hmem with rfl | hmem
            · simp [CaseT.tref] at hnone
            · have hrest := ih (i + 1) ⟨c0, hmem, hnone⟩
              simp [loadVariantCases, hrest]

/-- An identity casing used for concrete inputs (the theorems themselves
hold for every casing). -/
def exCasing : Casing := ⟨fun s => s, fun s => s, fun s => s⟩

/-- A plain 32-bit builtin type reference. -/
def exU32 : TypeRef := .Value (.Builtin (.U32 false))

/-- A mixed variant: a payload-less case next to a payload-bearing case. -/
def exMixedVariant : VariantT :=
  .mk [.mk "a" "" none, .mk "b" "" (some exU32)] .U8 4 false none

/-- A general variant: every case carries a payload. -/
def exPayloadVariant : VariantT :=
  .mk [.mk "ok" "" (some exU32), .mk "bad" "" (some exU32)] .U8 4 false none

def exMixedNt : NamedType := .mk "myvar" (.Value (.Variant exMixedVariant))

def exPayloadNt : NamedType := .mk "pvar" (.Value (.Variant exPayloadVariant))

/-- An empty visitor state. -/
def exVisitor : RustVisitor := ⟨"", [], [], []⟩

/-- A safe interface function: one builtin parameter, one builtin result. -/
def exSafeFunc : InterfaceFunc :=
  ⟨"fd_close", "", [⟨"fd", "", exU32⟩], [], false, [.I32], [.I32]⟩

/-- An unsafe interface function: its parameter is a raw pointer. -/
def exUnsafeFunc : InterfaceFunc :=
  ⟨"p_read", "", [⟨"p", "", .Value (.Pointer exU32)⟩], [], false, [.I32], []⟩

/-- A three-member bitflags record backed by a 16-bit representation. -/
def exBitflagsRecord : RecordDatatype :=
  .mk [.mk "fl_read" "" exU32, .mk "fl_write" "" exU32, .mk "fl_exec" "" exU32]
      (some .U16) false [0, 2, 4]

def exBitflagsNt : NamedType := .mk "rights" (.Value (.Record exBitflagsRecord))

/-! The claims. -/

/-- C1 counterexample: for a named type whose concrete type is a
payload-bearing (non-enum-like) variant, store_type does not abort
generation: it returns, and the text it emits into the generated source
is the placeholder TODO().  This falsifies the claim that the store
emission path aborts immediately with no placeholder output. -/
theorem C1_counterexample :
    store_type exCasing exPayloadNt ("x") ("ptr") = some ("TODO()")
      ∧ store_type exCasing exPayloadNt ("x") ("ptr") ≠ none := by
  have h := store_type_general_variant exCasing exPayloadNt exPayloadVariant
    ("x") ("ptr") rfl (by decide)
  exact ⟨h, by simp [h]⟩

/-- C1 (amended): for every named type whose concrete type is a
payload-bearing (non-enum-like) variant, store_type does not abort; it
emits exactly the literal placeholder text TODO() into the generated
source (an expression that defers the failure to the generated code's
runtime), rather than aborting generation. -/
theorem C1_store_general_variant_emits_placeholder (cs : Casing) (nt : NamedType)
    (v : VariantT) (reference ptr : String) (h : nt.tref.type_ = .Variant v)
    (he : is_variant_enum_like v = false) :
    store_type cs nt reference ptr = some ("TODO()") :=
  store_type_general_variant cs nt v reference ptr h he

/-- C1 witness: the amended claim at a concrete mixed variant. -/
theorem C1_witness :
    store_type exCasing exMixedNt ("x") ("ptr") = some ("TODO()") :=
  C1_store_general_variant_emits_placeholder exCasing exMixedNt exMixedVariant
    ("x") ("ptr") rfl (by decide)

/-- C2 counterexample: on S32FromI32 with one operand on the stack the
visitor pushes no result and pops no operand (the operand and result
vectors come back unchanged), and BitflagsFromI32 aborts generation; this
falsifies the claim that each of the listed conversions pops exactly one
operand and pushes exactly one result. -/
theorem C2_counterexample :
    RustVisitor.emit exCasing exVisitor .S32FromI32 ["x"] []
        = some (exVisitor, ["x"], [])
      ∧ RustVisitor.emit exCasing exVisitor .BitflagsFromI32 ["x"] [] = none := by
  exact ⟨rfl, rfl⟩

/-- C2 (amended): the scalar conversions that are identities at the Kotlin
level (S32FromI32, U32FromI32, S64FromI64, U64FromI64, UsizeFromI32,
HandleFromI32, PointerFromI32, ConstPointerFromI32) pop no operand and
push no result: emit returns the state and both vectors unchanged.
BitflagsFromI32 and BitflagsFromI64 are unimplemented and abort
generation.  The float and signed-word identities (I32FromS32 etc.) do pop
exactly one operand and push it through unchanged, and the wrapping
conversions (S8FromI32 etc.) pop exactly one operand and push exactly one
wrapped result. -/
theorem C2_conversion_stack_discipline (cs : Casing) (st : RustVisitor)
    (operands results rest : List String) (x : String) (inst : Instruction)
    (hmem : inst ∈ [Instruction.S32FromI32, Instruction.U32FromI32,
                    Instruction.S64FromI64, Instruction.U64FromI64,
                    Instruction.UsizeFromI32, Instruction.HandleFromI32,
                    Instruction.PointerFromI32, Instruction.ConstPointerFromI32]) :
    RustVisitor.emit cs st inst operands results = some (st, operands, results)
  ∧ RustVisitor.emit cs st .BitflagsFromI32 operands results = none
  ∧ RustVisitor.emit cs st .BitflagsFromI64 operands results = none
  ∧ RustVisitor.emit cs st .I32FromS32 (rest ++ [x]) results
      = some (st, rest, results ++ [x])
  ∧ RustVisitor.emit cs st .S8FromI32 (rest ++ [x]) results
      = some (st, rest, results ++ [x ++ ".toByte()"]) := by
  refine ⟨?_, rfl, rfl, ?_, ?_⟩
  · fin_cases hmem <;> rfl
  · simp [RustVisitor.emit, vecPop_concat]
  · simp [RustVisitor.emit, topAs, vecPop_concat, String.append_assoc]

/-- C2 witness: the amended claim at concrete inputs. -/
theorem C2_witness :
    RustVisitor.emit exCasing exVisitor .U32FromI32 ["x"] []
      = some (exVisitor, ["x"], []) :=
  (C2_conversion_stack_discipline exCasing exVisitor ["x"] [] [] ("x")
    .U32FromI32 (by simp)).1

/-- C3 counterexample: ResultLift does not pop the discriminant operand —
after emit the operand vector is unchanged, still holding the
discriminant, not empty as one popped operand would leave it.  The
visitor only reads the first operand; the engine, not the visitor,
consumes it. -/
theorem C3_counterexample :
    (RustVisitor.emit exCasing ⟨"", [], [], ["OKB", "ERRB"]⟩ .ResultLift
        ["disc"] []).map (fun r => r.2.1) = some (["disc"])
      ∧ some (["disc"]) ≠ some (([] : List String)) := by
  exact ⟨rfl, by decide⟩

/-- C3 (amended): ResultLift pops two completed blocks, the error-case
block first (the last completed, at the tail of the block list), then the
success-case block, and reads the discriminant from the first operand
without popping it (the operand vector is returned unchanged; the engine,
not the visitor, consumes the operand); it pushes exactly one conditional
expression whose then branch (taken when the discriminant equals the
success tag 0) evaluates to the success block and whose else branch throws
a WasiError built from the error block. -/
theorem C3_result_lift_blocks_and_conditional (cs : Casing) (st : RustVisitor)
    (bs : List String) (ok err d : String) (ops results : List String)
    (hblocks : st.blocks = bs ++ [ok, err]) :
    RustVisitor.emit cs st .ResultLift (d :: ops) results =
      some ({ st with blocks := bs }, d :: ops,
        results ++ ["if (" ++ d ++ " == 0) \x7b\n" ++ ok
          ++ "\x7d else \x7b" ++ "throw WasiError(" ++ err ++ ")\n" ++ "\x7d\n"]) := by
  simp [RustVisitor.emit, hblocks, vecPop_concat2, vecPop_concat]

/-- C3 witness: ResultLift at a concrete state. -/
theorem C3_witness :
    RustVisitor.emit exCasing ⟨"", [], [], ["OK", "ERR"]⟩ .ResultLift ["d"] [] =
      some (⟨"", [], [], []⟩, ["d"],
        ["if (d == 0) \x7b\nOK\x7d else \x7bthrow WasiError(ERR)\n\x7d\n"]) := by
  rw [C3_result_lift_blocks_and_conditional exCasing ⟨"", [], [], ["OK", "ERR"]⟩
    [] ("OK") ("ERR") ("d") [] [] rfl]
  rfl

/-- C4 counterexample: a Return instruction with zero operands emits
nothing at all — the output buffer is unchanged (still empty), so no bare
return statement is emitted; this falsifies the claim that a Return with 0
operands emits a bare return statement. -/
theorem C4_counterexample :
    RustVisitor.emit exCasing exVisitor (.Return 0) [] [] = some (exVisitor, [], [])
      ∧ exVisitor.src = "" := by
  exact ⟨rfl, rfl⟩

/-- C4 (amended): a Return with 0 operands emits nothing (state, operands
and results all unchanged — in particular no return statement text); a
Return with 1 operand appends a return of the first operand's rendered
expression to the output buffer; a Return with more than 1 operand is an
unimplemented path that aborts generation. -/
theorem C4_return_emission (cs : Casing) (st : RustVisitor)
    (ops results rest : List String) (d : String) (amt : Nat) (h2 : amt ≥ 2) :
    RustVisitor.emit cs st (.Return 0) ops results = some (st, ops, results)
  ∧ RustVisitor.emit cs st (.Return 1) (d :: rest) results =
      some ({ st with src := st.src ++ "return " ++ d }, d :: rest, results)
  ∧ RustVisitor.emit cs st (.Return amt) ops results = none := by
  obtain ⟨k, rfl⟩ : ∃ k, amt = k + 2 := ⟨amt - 2, by omega⟩
  refine ⟨rfl, ?_, rfl⟩
  simp [RustVisitor.emit]

/-- C4 witness: the amended claim at concrete inputs. -/
theorem C4_witness :
    RustVisitor.emit exCasing exVisitor (.Return 1) ["x"] [] =
      some (⟨"return x", [], [], []⟩, ["x"], []) := by
  rw [(C4_return_emission exCasing exVisitor [] [] [] ("x") 2 (by decide)).2.1]
  rfl

/-- C5 counterexample: loading an 8-bit builtin aborts generation, as does
storing a signed 32-bit builtin; this falsifies the claim that load and
store emission succeed for every builtin scalar. -/
theorem C5_counterexample :
    load_built_in (.U8 false) ("p") = none ∧ store_built_in .S32 ("x") ("p") = none := by
  exact ⟨rfl, rfl⟩

/-- C5 (amended): builtin load/store emission succeeds exactly for the U32
and U64 builtins — for those it emits a single typed read (loadInt or
loadLong) or write (storeInt or storeLong) primitive against the byte
offset — and aborts generation for every other builtin width. -/
theorem C5_builtin_load_store_characterization (b : BuiltinType) (reference ptr : String) :
    ((load_built_in b ptr).isSome ↔ ((∃ lp, b = .U32 lp) ∨ b = .U64))
  ∧ ((store_built_in b reference ptr).isSome ↔ ((∃ lp, b = .U32 lp) ∨ b = .U64))
  ∧ (∀ lp, load_built_in (.U32 lp) ptr = some ("loadInt(" ++ ptr ++ ")"))
  ∧ load_built_in .U64 ptr = some ("loadLong(" ++ ptr ++ ")")
  ∧ (∀ lp, store_built_in (.U32 lp) reference ptr
        = some ("storeInt(" ++ ptr ++ ", " ++ reference ++ ")"))
  ∧ store_built_in .U64 reference ptr
        = some ("storeLong(" ++ ptr ++ ", " ++ reference ++ ")") := by
  refine ⟨?_, ?_, fun lp => rfl, rfl, fun lp => rfl, rfl⟩ <;>
    cases b <;> simp [load_built_in, store_built_in]

/-- C6: a function is classified safe exactly when no parameter or result
type transitively contains a raw Pointer or ConstPointer; a safe function
renders as a public wrapper (no internal modifier, no name mangling, no
allocator parameter) whose body is wrapped in a scoped-allocator
acquisition block, while an unsafe function renders as an internal wrapper
with the unsafe name prefix and an allocator threaded as the first
parameter, with no scoped-allocator block. -/
theorem C6_safety_classification_and_wrapper_shape (cs : Casing) (mm : Bool)
    (f : InterfaceFunc) (module body psText resText : String)
    (hps : renderParams cs f.params = some psText)
    (hres : renderResultPart cs f.results = some resText) :
    (f.is_safe = true ↔ funcNoPointerSpec f = true)
  ∧ (f.is_safe = true →
      render_highlevel cs mm f module body =
        some (rustdoc f.docs ++ rustdoc_params f.params ("Parameters")
          ++ rustdoc_params f.results ("Return")
          ++ "fun "
          ++ (if mm then cs.toSnakeCase module ++ "_" ++ f.name else to_rust_ident f.name)
          ++ "(" ++ psText ++ ")" ++ resText ++ " \x7b\n"
          ++ "withScopedMemoryAllocator \x7b allocator ->" ++ body ++ "\x7d" ++ "\x7d"))
  ∧ (f.is_safe = false →
      render_highlevel cs mm f module body =
        some (rustdoc f.docs ++ rustdoc_params f.params ("Parameters")
          ++ rustdoc_params f.results ("Return")
          ++ "internal " ++ "fun " ++ "__unsafe__"
          ++ (if mm then cs.toSnakeCase module ++ "_" ++ f.name else to_rust_ident f.name)
          ++ "(" ++ "allocator: MemoryAllocator," ++ psText ++ ")" ++ resText
          ++ " \x7b\n" ++ body ++ "\x7d")) := by
  refine ⟨?_, ?_, ?_⟩
  · simp [InterfaceFunc.is_safe, funcNoPointerSpec, InterfaceFuncParam.is_safe,
      TypeRef.is_safe_eq]
  · intro hsafe
    simp [render_highlevel, hps, hres, hsafe]
  · intro hunsafe
    simp [render_highlevel, hps, hres, hunsafe]

/-- C6 witness: the safe case at a concrete function with one builtin
parameter, and the classification at the same input. -/
theorem C6_witness :
    render_highlevel exCasing false exSafeFunc ("m") ("BODY") =
      some ("fun fd_close(fd: Int,) \x7b\nwithScopedMemoryAllocator \x7b allocator ->BODY\x7d\x7d") := by
  have hps : renderParams exCasing exSafeFunc.params = some ("fd: Int,") := by
    simp [renderParams, exSafeFunc, exU32, TypeRef.render, BuiltinType.render,
      to_rust_ident, exCasing]
  have hsafe : exSafeFunc.is_safe = true := by
    simp [InterfaceFunc.is_safe, InterfaceFuncParam.is_safe, TypeRef.is_safe,
      Type_.is_safe, TypeRef.type_, exSafeFunc, exU32]
  rw [(C6_safety_classification_and_wrapper_shape exCasing false exSafeFunc
    ("m") ("BODY") ("fd: Int,") ("") hps rfl).2.1 hsafe]
  decide

/-- C7: a bitflags record with k members renders as (a) a type alias to
its underlying integer representation and (b) a companion object with one
named constant per flag, the i-th constant (in declaration order, indices
supplied by the enumeration) having the value 1 shl i; the list of shift
amounts is exactly 0, 1, ..., k-1, so the rendered constant values are
exactly 1 shl 0 through 1 shl (k-1). -/
theorem C7_bitflags_alias_and_flag_constants (cs : Casing) (name : String)
    (nt : NamedType) (s : RecordDatatype) (repr : IntRepr)
    (hbf : s.bitflagsRepr = some repr) :
    render_record cs name nt s =
      some ("typealias " ++ cs.toCamelCase name ++ " = " ++ IntRepr.render repr ++ "\n"
        ++ "object " ++ cs.toShoutySnakeCase name ++ " \x7b\n"
        ++ String.join (((List.range s.members.length).zip s.members).map (fun p =>
             rustdoc p.2.docs ++ "const val " ++ cs.toShoutySnakeCase p.2.name ++ ": "
               ++ cs.toCamelCase name ++ " = 1 shl " ++ toString p.1 ++ "\n"))
        ++ "\x7d\n")
  ∧ (s.members.enum.map Prod.fst) = List.range s.members.length := by
  constructor
  · simp [render_record, hbf, List.enum_eq_zip_range]
  · simp [List.enum_map_fst]

/-- C7 witness: the bitflags rendering at a concrete three-flag record. -/
theorem C7_witness :
    render_record exCasing ("rights") exBitflagsNt exBitflagsRecord =
      some ("typealias rights = Short\nobject rights \x7b\nconst val fl_read: rights = 1 shl 0\nconst val fl_write: rights = 1 shl 1\nconst val fl_exec: rights = 1 shl 2\n\x7d\n") := by
  rw [(C7_bitflags_alias_and_flag_constants exCasing ("rights") exBitflagsNt
    exBitflagsRecord .U16 rfl).1]
  decide

/-- C8: an interface function whose name is not already snake case is
rejected outright — the raw-import renderer aborts generation — and when
the name is accepted it is used verbatim in the generated attribute and
entry-point name, never converted. -/
theorem C8_non_snake_name_rejected (cs : Casing) (f : InterfaceFunc) :
    (f.name ≠ cs.toSnakeCase f.name → InterfaceFunc.render cs f = none)
  ∧ (f.name = cs.toSnakeCase f.name → f.wasmResults.length ≤ 1 →
      InterfaceFunc.render cs f =
        some (rustdoc f.docs
          ++ "@WasmImport(\"wasi_snapshot_preview1\", \"" ++ f.name ++ "\")\n"
          ++ "private external fun " ++ "_raw_wasm__" ++ f.name
          ++ "(" ++ renderWasmParams f.wasmParams ++ ")"
          ++ (if f.noreturn then ": Unit"
              else match f.wasmResults.head? with
                | some r => ": " ++ WasmType.render r
                | none => ""))) := by
  constructor
  · intro h
    simp [InterfaceFunc.render, h]
  · intro h hr
    have hr2 : ¬(f.wasmResults.length > 1) := by omega
    rw [InterfaceFunc.render, if_neg (not_not_intro h), if_neg hr2]

/-- C8 witness: a camel-case name is rejected under a lower-casing snake
convention. -/
theorem C8_witness :
    InterfaceFunc.render ⟨fun s => s, fun s => s, fun _ => "fd_close"⟩
      { exSafeFunc with name := "fdClose" } = none := by
  exact (C8_non_snake_name_rejected ⟨fun s => s, fun s => s, fun _ => "fd_close"⟩
    { exSafeFunc with name := "fdClose" }).1 (by decide)

/-- C9: for a named type whose concrete type is a non-enum-like variant in
which at least one case carries no payload type, load emission aborts
generation (the unwrap of the missing payload reference fails) instead of
emitting a load expression. -/
theorem C9_mixed_variant_load_aborts (cs : Casing) (nt : NamedType) (v : VariantT)
    (ptr : String) (hv : nt.type_ = .Variant v)
    (hne : is_variant_enum_like v = false)
    (hmiss : ∃ c ∈ v.cases, c.tref = none) :
    load_type cs nt ptr = none := by
  have hcases := loadVariantCases_none_of_missing cs (cs.toCamelCase nt.name) v.cases 0
    (ptr ++ " + " ++ toString v.payloadOffset) hmiss
  unfold load_type
  split
  all_goals split
  all_goals simp_all

/-- C9 witness: load emission aborts at a concrete mixed variant. -/
theorem C9_witness : load_type exCasing exMixedNt ("ptr") = none := by
  exact C9_mixed_variant_load_aborts exCasing exMixedNt exMixedVariant ("ptr") rfl
    (by decide)
    ⟨CaseT.mk ("a") ("") none, by simp [exMixedVariant, VariantT.cases], rfl⟩

/-- C10: finishing a block with no final operand requires the block to
have emitted no statement text — if any text was emitted the assertion
aborts generation, and otherwise the completed block is recorded as the
literal expression Unit; finishing a block with a final operand and
non-empty statement text records a compound block wrapping the statements
followed by the final expression. -/
theorem C10_finish_block_contract (st : RustVisitor) (sst : List String)
    (prev s : String) (hstorage : st.block_storage = sst ++ [prev]) :
    (st.src = "" → st.finish_block none =
        some { st with src := prev, block_storage := sst,
                       blocks := st.blocks ++ ["Unit"] })
  ∧ (st.src ≠ "" → st.finish_block none = none)
  ∧ (st.src ≠ "" → st.finish_block (some s) =
        some { st with src := prev, block_storage := sst,
                       blocks := st.blocks
                         ++ ["\x7b " ++ st.src ++ ";\n " ++ s ++ " \x7d"] }) := by
  refine ⟨?_, ?_, ?_⟩ <;> intro h <;>
    simp [RustVisitor.finish_block, hstorage, vecPop_concat,
      String.isEmpty_iff, h]

/-- C10 witness: the compound case at a concrete state with statement text
and a final operand. -/
theorem C10_witness :
    RustVisitor.finish_block ⟨"stmt;", [], ["SAVED"], []⟩ (some ("fin")) =
      some ⟨"SAVED", [], [], ["\x7b stmt;;\n fin \x7d"]⟩ := by
  rw [(C10_finish_block_contract ⟨"stmt;", [], ["SAVED"], []⟩ [] ("SAVED") ("fin")
    rfl).2.2 (by decide)]
  rfl

end WitxBindgen
